import Mathlib

/-!
Shallow embedding of `testutil/server.go` (a test helper that launches an
external consul agent, waits for it to elect a leader, and tears it down).

The stateful and effectful parts of the Go code are embedded as pure
functions over explicit state:
* the package-level `var offset uint64` and `atomic.AddUint64(&offset, 1)`
  become explicit counter values with wraparound modulo `2 ^ 64`, and the Go
  conversion `int(...)` (64-bit platform) is modelled by `goInt`;
* the HTTP GET inside `waitForLeader` becomes an abstract `HTTPResult`: either
  a transport error or a response carrying the two header values the code
  reads (`Header.Get` returns the empty string for an absent header);
* `json.Marshal` with the struct's `omitempty` tags becomes `serializeConfig`,
  producing the JSON object as an ordered field list;
* `NewTestServerConfig` and `Stop` become functions from an environment
  (the outcome of each OS call they make) to an outcome plus a trace of the
  side-effecting steps they performed.
-/

namespace Consul

/-- Go `uint64` arithmetic wraps modulo `2 ^ 64`. -/
def uint64Mod : Nat := 2 ^ 64

/-- The new counter value `atomic.AddUint64(&offset, 1)` stores and returns. -/
def addUint64 (offset : Nat) : Nat := (offset + 1) % uint64Mod

/-- Go conversion `int(x)` of a `uint64` value on a 64-bit platform:
values at or above `2 ^ 63` reinterpret as negative. -/
def goInt (n : Nat) : Int := if n < 2 ^ 63 then (n : Int) else (n : Int) - 2 ^ 64

/-- Counter value after `k` calls of `defaultServerConfig`, starting from the
zero value of the package-level `var offset uint64`. -/
def offsetAfter : Nat → Nat
  | 0 => 0
  | k + 1 => addUint64 (offsetAfter k)

/-- The `idx` value computed by the k-th call of `defaultServerConfig`
(calls numbered from 1): `idx := int(atomic.AddUint64(&offset, 1))`. -/
def nthIdx (k : Nat) : Int := goInt (offsetAfter k)

/-- `TestPortConfig` (fields are Go `int`). -/
structure TestPortConfig where
  dns : Int
  http : Int
  rpc : Int
  serfLan : Int
  serfWan : Int
  server : Int
  deriving DecidableEq

/-- `TestAddressConfig`. -/
structure TestAddressConfig where
  http : String
  deriving DecidableEq

/-- `TestServerConfig`. Go's zero values stand for the unset fields: `""` for
strings and `none` for the two struct pointers. -/
structure TestServerConfig where
  bootstrap : Bool
  server : Bool
  dataDir : String
  logLevel : String
  addresses : Option TestAddressConfig
  ports : Option TestPortConfig
  deriving DecidableEq

/-- The ports block `defaultServerConfig` builds for a given `idx`. -/
def portsFor (idx : Int) : TestPortConfig :=
  { dns := 19000 + idx
    http := 18800 + idx
    rpc := 18600 + idx
    serfLan := 18200 + idx
    serfWan := 18400 + idx
    server := 18000 + idx }

/-- The six ports of one instance as a list. -/
def portList (idx : Int) : List Int :=
  [(portsFor idx).dns, (portsFor idx).http, (portsFor idx).rpc,
   (portsFor idx).serfLan, (portsFor idx).serfWan, (portsFor idx).server]

/-- The configuration literal `defaultServerConfig` returns, as a function of
the `idx` it computed from the counter. -/
def defaultServerConfigAt (idx : Int) : TestServerConfig :=
  { bootstrap := true
    server := true
    dataDir := ""
    logLevel := "debug"
    addresses := none
    ports := some (portsFor idx) }

/-- `defaultServerConfig` with the counter state explicit: increments the
counter and builds the config from the converted new value. -/
def defaultServerConfig (offset : Nat) : TestServerConfig × Nat :=
  let offset' := addUint64 offset
  (defaultServerConfigAt (goInt offset'), offset')

/-- A `TestServer` handle: pid, data directory and resolved config. -/
structure TestServer where
  pid : Nat
  dataDir : String
  config : TestServerConfig
  deriving DecidableEq

/-- Outcome of the HTTP GET in `waitForLeader`: a transport error, or a
response with the two header values the code reads. `Header.Get` yields `""`
for a header that is not present, so an absent header is the empty string. -/
inductive HTTPResult where
  | transportError (err : String)
  | response (knownLeader : String) (index : String)
  deriving DecidableEq

/-- The non-nil error values the readiness closure can return. -/
inductive CheckErr where
  | transport (err : String)
  | leaderStatus (got : String)
  | indexZero
  deriving DecidableEq

/-- The readiness closure passed to `WaitForResult` inside `waitForLeader`:
fails on transport error, fails unless the `X-Consul-KnownLeader` header
equals `"true"`, fails when the `X-Consul-Index` header equals `"0"`, and
otherwise returns `(true, nil)` (here `(true, none)`). -/
def leaderCheck : HTTPResult → Bool × Option CheckErr
  | .transportError e => (false, some (.transport e))
  | .response leader idx =>
    if leader ≠ "true" then (false, some (.leaderStatus leader))
    else if idx = "0" then (false, some .indexZero)
    else (true, none)

/-- Result of the retry loop: success, or the give-up handler invoked with
the last observed error. -/
inductive WaitResult where
  | success
  | gaveUp (lastErr : Option CheckErr)
  deriving DecidableEq

/-- Modelled from the spec: the body of `WaitForResult` (testutil/wait.go is
not part of the staged sources). It repeatedly invokes the check; a `true`
answer returns success immediately with no further calls; a `false` answer is
retried after a backoff until the attempt budget is exhausted, at which point
the give-up handler is invoked with the last observed error (represented by
`gaveUp`). `attempt` numbers the calls so the check may answer differently
over time; `fuel` is the remaining attempt budget. -/
def waitAttempts (check : Nat → Bool × Option CheckErr) :
    Nat → Nat → Option CheckErr → WaitResult
  | 0, _, lastErr => .gaveUp lastErr
  | fuel + 1, attempt, _ =>
    match check attempt with
    | (true, _) => .success
    | (false, e) => waitAttempts check fuel (attempt + 1) e

/-- Modelled from the spec: `WaitForResult budget check` runs the retry loop
with a fresh attempt counter and no error observed yet. -/
def WaitForResult (budget : Nat) (check : Nat → Bool × Option CheckErr) : WaitResult :=
  waitAttempts check budget 0 none

/-- Outcome of `waitForLeader`: a normal return carrying the Go error value,
or a panic raised by the give-up handler. -/
inductive WaitOutcome where
  | returned (err : Option CheckErr)
  | panicked (err : Option CheckErr)
  deriving DecidableEq

/-- `waitForLeader`: runs `WaitForResult` with the readiness closure over the
responses the server produces per attempt; the give-up handler panics with
the error, and the function body ends in `return nil`. -/
def waitForLeader (budget : Nat) (responses : Nat → HTTPResult) : WaitOutcome :=
  match WaitForResult budget (fun i => leaderCheck (responses i)) with
  | .success => .returned none
  | .gaveUp e => .panicked e

/-- JSON values, as far as `json.Marshal` needs them for `TestServerConfig`;
an object is its ordered field list. -/
inductive JVal where
  | bool (b : Bool)
  | str (s : String)
  | num (n : Int)
  | obj (fields : List (String × JVal))

/-- Association lookup in an object's field list (first match wins). -/
def lookupPairs : List (String × JVal) → String → Option JVal
  | [], _ => none
  | (k, v) :: rest, key => if k = key then some v else lookupPairs rest key

/-- Field lookup on a JSON value (none on non-objects). -/
def lookupField (j : JVal) (key : String) : Option JVal :=
  match j with
  | .obj fields => lookupPairs fields key
  | _ => none

/-- `json.Marshal` of `TestPortConfig`: each `int` field carries `omitempty`,
so a zero port is left out. -/
def serializePorts (p : TestPortConfig) : JVal :=
  .obj ((if p.dns = 0 then [] else [("dns", JVal.num p.dns)]) ++
        (if p.http = 0 then [] else [("http", JVal.num p.http)]) ++
        (if p.rpc = 0 then [] else [("rpc", JVal.num p.rpc)]) ++
        (if p.serfLan = 0 then [] else [("serf_lan", JVal.num p.serfLan)]) ++
        (if p.serfWan = 0 then [] else [("serf_wan", JVal.num p.serfWan)]) ++
        (if p.server = 0 then [] else [("server", JVal.num p.server)]))

/-- `json.Marshal` of `TestAddressConfig` (`omitempty` string field). -/
def serializeAddresses (a : TestAddressConfig) : JVal :=
  .obj (if a.http = "" then [] else [("http", JVal.str a.http)])

/-- `json.Marshal` of `TestServerConfig` in struct field order, with
`omitempty` on every field: `false` bools, empty strings and nil pointers
are left out of the document. -/
def serializeConfig (c : TestServerConfig) : JVal :=
  .obj ((if c.bootstrap then [("bootstrap", JVal.bool true)] else []) ++
        (if c.server then [("server", JVal.bool true)] else []) ++
        (if c.dataDir = "" then [] else [("data_dir", JVal.str c.dataDir)]) ++
        (if c.logLevel = "" then [] else [("log_level", JVal.str c.logLevel)]) ++
        (match c.addresses with
         | none => []
         | some a => [("addresses", serializeAddresses a)]) ++
        (match c.ports with
         | none => []
         | some p => [("ports", serializePorts p)]))

/-- The `consulConfig` value `NewTestServerConfig` hands to `json.Marshal`:
defaults computed from the counter's `idx`, then `DataDir` set to the fresh
temp directory, then the caller's callback (which mutates the config through
a pointer, modelled as a function applied last). -/
def buildConsulConfig (idx : Int) (dataDir : String)
    (cb : Option (TestServerConfig → TestServerConfig)) : TestServerConfig :=
  let c := { defaultServerConfigAt idx with dataDir := dataDir }
  match cb with
  | none => c
  | some f => f c

/-- The side-effecting steps `NewTestServerConfig` performs, in order. -/
inductive Action where
  | tempDirCreated (dir : String)
  | tempFileCreated (file : String)
  | configWritten
  | processStarted (pid : Nat)
  deriving DecidableEq

/-- Which `t.Fatalf` call site aborted the setup. -/
inductive FatalSite where
  | tempDir
  | tempFile
  | writeConfig
  | startProcess
  | leaderWait
  deriving DecidableEq

/-- Overall outcome of `NewTestServerConfig`: test skipped, test aborted by
`t.Fatalf`, panic propagated from the give-up handler, or a handle. -/
inductive RunResult where
  | skipped
  | fatal (site : FatalSite)
  | panicked (err : Option CheckErr)
  | ok (server : TestServer)
  deriving DecidableEq

/-- The environment of one `NewTestServerConfig` run: the outcome of each OS
facility it consults, the counter state at entry, and the per-attempt HTTP
responses the freshly started agent gives the readiness poller. -/
structure Env where
  lookPath : Except String String
  tempDir : Except String String
  tempFile : Except String String
  writeConfig : Except String Unit
  startProcess : Except String Nat
  offset0 : Nat
  budget : Nat
  responses : Nat → HTTPResult

/-- `NewTestServerConfig` over an explicit environment: skip when the consul
binary is absent (`LookPath` errors or yields an empty path), abort on any
setup failure, then build and serialize the config, start the process and
poll for a leader. Second component: the trace of completed setup steps.
`json.Marshal` of a `TestServerConfig` cannot fail (the struct holds only
marshalable fields), so the `Fatalf` branch after `Marshal` has no error
case to model. The deferred removal of the temp config file is not tracked. -/
def newTestServerConfig (env : Env)
    (cb : Option (TestServerConfig → TestServerConfig)) : RunResult × List Action :=
  match env.lookPath with
  | .error _ => (.skipped, [])
  | .ok path =>
    if path = "" then (.skipped, [])
    else
      match env.tempDir with
      | .error _ => (.fatal .tempDir, [])
      | .ok dataDir =>
        match env.tempFile with
        | .error _ => (.fatal .tempFile, [.tempDirCreated dataDir])
        | .ok file =>
          let consulConfig := buildConsulConfig (goInt (addUint64 env.offset0)) dataDir cb
          match env.writeConfig with
          | .error _ => (.fatal .writeConfig,
              [.tempDirCreated dataDir, .tempFileCreated file])
          | .ok _ =>
            match env.startProcess with
            | .error _ => (.fatal .startProcess,
                [.tempDirCreated dataDir, .tempFileCreated file, .configWritten])
            | .ok pid =>
              let acts := [Action.tempDirCreated dataDir, Action.tempFileCreated file,
                Action.configWritten, Action.processStarted pid]
              match waitForLeader env.budget env.responses with
              | .panicked e => (.panicked e, acts)
              | .returned (some _) => (.fatal .leaderWait, acts)
              | .returned none => (.ok ⟨pid, dataDir, consulConfig⟩, acts)

/-- The side-effecting steps `Stop` performs. -/
inductive StopAction where
  | killSignal (pid : Nat)
  | removeDir (dir : String)
  deriving DecidableEq

/-- Outcome of `Stop`: normal return, or panic with the error of `cmd.Run`. -/
inductive StopOutcome where
  | returned
  | panicked (err : String)
  deriving DecidableEq

/-- `Stop` over the outcome `kr` of running `kill -9 <pid>`: the kill command
runs first; `defer os.RemoveAll(s.dataDir)` runs on every exit path — Go
deferred calls run during panic unwinding too — so the directory removal
appears after the kill attempt in the trace of both paths. -/
def stop (kr : Except String Unit) (s : TestServer) : StopOutcome × List StopAction :=
  match kr with
  | .ok _ => (.returned, [.killSignal s.pid, .removeDir s.dataDir])
  | .error e => (.panicked e, [.killSignal s.pid, .removeDir s.dataDir])

/-! ## Helper lemmas -/

/-- The counter after k calls is k modulo `2 ^ 64`. -/
theorem offsetAfter_eq (k : Nat) : offsetAfter k = k % uint64Mod := by
  induction k with
  | zero => rfl
  | succ n ih =>
    simp only [offsetAfter, addUint64, ih, uint64Mod]
    omega

/-- The k-th returned index in closed form. -/
theorem nthIdx_value (k : Nat) : nthIdx k = goInt (k % uint64Mod) := by
  simp only [nthIdx, offsetAfter_eq]

/-- Lookup distributes over append of field lists. -/
theorem lookupPairs_append (xs ys : List (String × JVal)) (key : String) :
    lookupPairs (xs ++ ys) key =
      match lookupPairs xs key with
      | some v => some v
      | none => lookupPairs ys key := by
  induction xs with
  | nil => rfl
  | cons p rest ih =>
    obtain ⟨k, v⟩ := p
    simp only [List.cons_append, lookupPairs]
    split <;> simp [ih]

/-- A config with a non-empty data directory serializes it under `data_dir`. -/
theorem serialize_dataDir (c : TestServerConfig) (h : c.dataDir ≠ "") :
    lookupField (serializeConfig c) "data_dir" = some (JVal.str c.dataDir) := by
  cases hb : c.bootstrap <;> cases hs : c.server <;>
    simp [serializeConfig, lookupField, lookupPairs_append, lookupPairs, hb, hs, h]

/-- `waitForLeader` either returns nil or panics. -/
theorem waitForLeader_cases (b : Nat) (r : Nat → HTTPResult) :
    waitForLeader b r = .returned none ∨ ∃ e, waitForLeader b r = .panicked e := by
  unfold waitForLeader
  cases WaitForResult b (fun i => leaderCheck (r i)) <;> simp

/-! ## Claim theorems -/

/-- C1 (amended): the readiness check returns `(true, nil)` exactly when the
request produced a response (no transport error) whose leader-known header
equals the exact string `"true"` and whose index header value is not the
literal string `"0"` (an absent index header, read as the empty string, also
passes); in every other case the check returns `(false, err)` with a non-nil
error rather than a hard error. -/
theorem leaderCheck_ready_iff (h : HTTPResult) :
    (leaderCheck h = (true, none) ↔
      ∃ l i, h = HTTPResult.response l i ∧ l = "true" ∧ i ≠ "0") ∧
    (leaderCheck h = (true, none) ∨ ∃ e, leaderCheck h = (false, some e)) := by
  cases h with
  | transportError e =>
    refine ⟨?_, Or.inr ⟨.transport e, rfl⟩⟩
    simp [leaderCheck]
  | response l i =>
    by_cases hl : l = "true" <;> by_cases hi : i = "0"
    · simp [leaderCheck, hl, hi]
    · have hval : leaderCheck (HTTPResult.response l i) = (true, none) := by
        simp [leaderCheck, hl, hi]
      subst hl
      exact ⟨⟨fun _ => ⟨"true", i, rfl, rfl, hi⟩, fun _ => hval⟩, Or.inl hval⟩
    · simp [leaderCheck, hl, hi]
    · simp [leaderCheck, hl, hi]

/-- C1 counterexample: on a response whose leader header is `"true"` and
whose index header is absent (`Header.Get` yields `""`), the check returns
`(true, nil)` even though the index header is not "present and non-zero". -/
theorem leaderCheck_true_on_absent_index :
    leaderCheck (HTTPResult.response "true" "") = (true, none) := rfl

/-- C2: for two instance indices that differ, but by less than 200 (the
smallest separation between two of the six role bases), no port of the one
instance equals any port of the other. -/
theorem portList_disjoint (i j : Int) (hne : i ≠ j)
    (hsep : (i - j).natAbs < 200) :
    ∀ p, p ∈ portList i → p ∉ portList j := by
  intro p hp hq
  simp only [portList, portsFor, List.mem_cons, List.mem_singleton,
    List.not_mem_nil, or_false] at hp hq
  rcases hp with hp | hp | hp | hp | hp | hp <;>
    rcases hq with hq | hq | hq | hq | hq | hq <;>
      omega

/-- C2 witness: instances 1 and 2 are 1 apart; the server port of instance 1
is not among the ports of instance 2. -/
theorem portList_disjoint_witness : (18001 : Int) ∉ portList 2 :=
  portList_disjoint 1 2 (by decide) (by decide) 18001 (by decide)

/-- C3: the default port computation at index 1 yields exactly
http 18801, rpc 18601, dns 19001, serf_lan 18201, serf_wan 18401,
server 18001. -/
theorem defaultServerConfig_index_one :
    (defaultServerConfigAt 1).ports =
      some { dns := 19001, http := 18801, rpc := 18601,
             serfLan := 18201, serfWan := 18401, server := 18001 } := rfl

/-- C4 (amended): the first call returns 1, and every later call returns a
strictly larger index than every earlier one, provided the total number of
calls stays below `2 ^ 63` (the counter is a `uint64` converted to a 64-bit
`int`, so it wraps beyond that). -/
theorem nthIdx_strictMono_below (m k : Nat) (_hm : 0 < m) (hmk : m < k)
    (hk : k < 2 ^ 63) : nthIdx 1 = 1 ∧ nthIdx m < nthIdx k := by
  refine ⟨by rw [nthIdx_value]; decide, ?_⟩
  rw [nthIdx_value, nthIdx_value]
  unfold goInt uint64Mod
  rw [Nat.mod_eq_of_lt (by omega), Nat.mod_eq_of_lt (by omega),
    if_pos (by omega), if_pos hk]
  exact_mod_cast hmk

/-- C4 witness: calls 1 and 2 return 1 and a strictly larger value. -/
theorem nthIdx_strictMono_below_witness : nthIdx 1 = 1 ∧ nthIdx 1 < nthIdx 2 :=
  nthIdx_strictMono_below 1 2 (by decide) (by decide) (by norm_num)

/-- C4 counterexample: the counter wraps modulo `2 ^ 64`, so call number
`2 ^ 64 + 1` returns the value 1 again — the same value the first call
returned, refuting "no value is ever returned twice" and "each returned
index is strictly greater than all previously returned indices" for
unboundedly many calls. -/
theorem nthIdx_repeats : nthIdx (2 ^ 64 + 1) = 1 ∧ nthIdx 1 = 1 := by
  constructor <;> rw [nthIdx_value] <;> decide

/-- C5 (amended): a customization callback runs after the defaults (data
directory assignment included) and before serialization, so a callback that
sets the data-directory field to a non-empty value makes exactly that value
appear under `data_dir` in the serialized document, overriding the default;
the empty string is the one exception, since `omitempty` then drops the key
from the document. -/
theorem callback_dataDir_overrides (idx : Int) (dataDir d : String)
    (cb : TestServerConfig → TestServerConfig)
    (hcb : ∀ c, (cb c).dataDir = d) (hd : d ≠ "") :
    lookupField (serializeConfig (buildConsulConfig idx dataDir (some cb)))
      "data_dir" = some (JVal.str d) := by
  have hb : buildConsulConfig idx dataDir (some cb) =
      cb { defaultServerConfigAt idx with dataDir := dataDir } := rfl
  rw [hb, serialize_dataDir _ (by rw [hcb]; exact hd), hcb]

/-- C5 witness: a callback that sets the data directory to `/custom/dir`
makes that exact value the `data_dir` field of the serialized document. -/
theorem callback_dataDir_overrides_witness :
    lookupField (serializeConfig (buildConsulConfig 1 "/tmp/consul-default"
      (some (fun c => { c with dataDir := "/custom/dir" })))) "data_dir" =
      some (JVal.str "/custom/dir") :=
  callback_dataDir_overrides 1 "/tmp/consul-default" "/custom/dir"
    (fun c => { c with dataDir := "/custom/dir" }) (fun c => rfl) (by decide)

/-- C5 counterexample: a callback that sets the data directory to the empty
string does not make that value appear in the document — `omitempty` drops
the `data_dir` key entirely, so the claim fails for that callback. -/
theorem dataDir_empty_omitted :
    lookupField (serializeConfig (buildConsulConfig 1 "/tmp/consul-data"
      (some (fun c => { c with dataDir := "" })))) "data_dir" = none := rfl

/-- C6: when `LookPath` fails (or yields an empty path), the setup skips the
test and performs no further step: no temp directory, no config file, no
config write, no process start. -/
theorem lookPath_failure_skips (env : Env)
    (cb : Option (TestServerConfig → TestServerConfig))
    (h : (∃ e, env.lookPath = .error e) ∨ env.lookPath = .ok "") :
    newTestServerConfig env cb = (.skipped, []) := by
  rcases h with ⟨e, he⟩ | he <;>
    simp [newTestServerConfig, he]

/-- Environment in which the consul binary is missing from the search path. -/
def envNoBinary : Env :=
  { lookPath := .error "exec: consul: executable file not found in $PATH"
    tempDir := .ok "/tmp/consul-data"
    tempFile := .ok "/tmp/consul-conf"
    writeConfig := .ok ()
    startProcess := .ok 4242
    offset0 := 0
    budget := 3
    responses := fun _ => .response "true" "5" }

/-- C6 witness: with the binary missing, the run is skipped with an empty
action trace. -/
theorem lookPath_failure_skips_witness :
    newTestServerConfig envNoBinary none = (.skipped, []) :=
  lookPath_failure_skips envNoBinary none (Or.inl ⟨_, rfl⟩)

/-- C7: `Stop` runs `kill -9` on the stored pid; when the kill command
succeeds it returns normally having also removed the data directory, and
when signal delivery fails it panics with that error (never swallowing it),
the deferred directory removal still having run. -/
theorem stop_kill_and_cleanup (s : TestServer) :
    stop (.ok ()) s =
      (.returned, [.killSignal s.pid, .removeDir s.dataDir]) ∧
    ∀ e, stop (.error e) s =
      (.panicked e, [.killSignal s.pid, .removeDir s.dataDir]) :=
  ⟨rfl, fun _ => rfl⟩

/-- C8: the readiness check accepts the leader-known header only when it is
the exact string `"true"` (any other value, absence included, is not ready),
and rejects on the index header only when it is the exact string `"0"` — an
absent index header (the empty string) passes. -/
theorem leaderCheck_exact_strings (l i : String) :
    (leaderCheck (HTTPResult.response l i)).1 = (l == "true" && !(i == "0")) := by
  by_cases hl : l = "true" <;> by_cases hi : i = "0" <;>
    simp [leaderCheck, hl, hi]

/-- C9 (spec-modelled loop): whenever `waitForLeader` returns, the returned
error is nil — its give-up handler panics instead of producing an error — so
the `Fatalf` branch after the `waitForLeader` call in `NewTestServerConfig`
is unreachable. -/
theorem waitForLeader_returns_nil (budget : Nat) (responses : Nat → HTTPResult)
    (e : Option CheckErr)
    (h : waitForLeader budget responses = WaitOutcome.returned e) :
    e = none ∧ ∀ env cb, (newTestServerConfig env cb).1 ≠
      RunResult.fatal FatalSite.leaderWait := by
  constructor
  · rcases waitForLeader_cases budget responses with hc | ⟨e', hc⟩ <;>
      rw [hc] at h
    · exact (WaitOutcome.returned.inj h).symm
    · exact absurd h (by simp)
  · intro env cb
    obtain ⟨lp, td, tf, wc, sp, off, bud, resp⟩ := env
    rcases waitForLeader_cases bud resp with hc | ⟨e', hc⟩ <;>
      cases lp <;> cases td <;> cases tf <;> cases wc <;> cases sp <;>
        simp [newTestServerConfig, hc] <;> split_ifs <;> simp

/-- C9 witness: a run whose first poll already sees a leader returns nil. -/
theorem waitForLeader_returns_nil_witness :
    (none : Option CheckErr) = none ∧ ∀ env cb, (newTestServerConfig env cb).1 ≠
      RunResult.fatal FatalSite.leaderWait :=
  waitForLeader_returns_nil 1 (fun _ => .response "true" "5") none rfl

/-- C10: the directory removal is deferred before the kill attempt, so even
on the path where signal delivery fails and `Stop` panics, the handle's data
directory is removed. -/
theorem stop_removes_dir_on_panic (s : TestServer) (e : String) :
    StopAction.removeDir s.dataDir ∈ (stop (.error e) s).2 := by
  simp [stop]

end Consul
